import Mathlib

/-!
Verification of the post-lifecycle / publication-status core of the `redes`
backend, as a shallow embedding in Lean 4.

The embedding follows the Python source:
* `src/database/models/publication.py`, `post.py` — the data model;
* `src/api/services/publication_service.py` — `update_publication_status`;
* `src/api/services/post_service.py` — `update_post_status`;
* `src/queue/tasks.py` — `_update_post_status_after_publication` (the
  aggregate-status resolver), the per-network media gates of
  `_publish_to_*`, and the retrying `publish_to_network_task`;
* `src/api/routes/posts_routes.py` — `retry_publication` and
  `publish_video_to_tiktok`;
* `src/api/controllers/posts_controller.py` — publication creation and
  enqueueing.

Machine timestamps are modelled as natural numbers, UUIDs as naturals,
and JSONB maps as association lists of strings.  Python truthiness of
optional strings and optional dicts ("" and set() are falsy) is modelled
explicitly, because the source branches on `if error_message:` and
`if metadata:`.
-/

namespace Redes

/-- Publication statuses, from `PublicationStatus` in
`src/database/models/publication.py`. -/
inductive PublicationStatus where
  | pending
  | processing
  | published
  | failed
deriving DecidableEq, Repr

/-- Post statuses, from `PostStatus` in `src/database/models/post.py`. -/
inductive PostStatus where
  | draft
  | processing
  | published
  | failed
deriving DecidableEq, Repr

/-- Supported social networks, from `SocialNetwork` in
`src/database/models/publication.py`. -/
inductive SocialNetwork where
  | facebook
  | instagram
  | linkedin
  | tiktok
  | whatsapp
deriving DecidableEq, Repr

/-- The JSONB `extra_data` column, modelled as an association list from
string keys to string values (the values are opaque to every claim). -/
abbrev ExtraData := List (String × String)

/-- Association-list lookup on `ExtraData`, modelling Python `dict.get`. -/
def lookupKey (m : ExtraData) (k : String) : Option String :=
  (m.find? (fun kv => kv.1 == k)).map (·.2)

/-- A row of the `publications` table
(`src/database/models/publication.py`).  `extra_data` defaults to the
empty dict, `published_at` and `error_message` to NULL. -/
structure Publication where
  id : Nat
  post_id : Nat
  network : SocialNetwork
  adapted_content : String
  status : PublicationStatus
  published_at : Option Nat
  error_message : Option String
  extra_data : ExtraData
deriving DecidableEq, Repr

/-- A row of the `posts` table (`src/database/models/post.py`), restricted
to the fields the core state machine touches. -/
structure Post where
  id : Nat
  status : PostStatus
deriving DecidableEq, Repr

/-- Python truthiness of an optional string argument: `None` and `""` are
falsy. -/
def strTruthy : Option String → Bool
  | none => false
  | some s => !(s == "")

/-- Python truthiness of an optional dict argument: `None` and the empty
dict are falsy. -/
def mapTruthy : Option ExtraData → Bool
  | none => false
  | some m => !m.isEmpty

/-- The field mutations of `PublicationService.update_publication_status`
(`src/api/services/publication_service.py` lines 104-117) applied to a
found row: set `status`; set `published_at := now` when the new status is
PUBLISHED; set `error_message` when a truthy message is supplied; assign
`extra_data := metadata` when a truthy dict is supplied. -/
def applyStatusUpdate (p : Publication) (status : PublicationStatus)
    (error_message : Option String) (metadata : Option ExtraData)
    (now : Nat) : Publication :=
  let p1 := { p with status := status }
  let p2 := if status = PublicationStatus.published then
              { p1 with published_at := some now } else p1
  let p3 := if strTruthy error_message then
              { p2 with error_message := error_message } else p2
  if mapTruthy metadata then { p3 with extra_data := metadata.getD [] } else p3

/-- `PublicationService.update_publication_status` over the whole table:
the first row with the given id (SQLAlchemy `.first()`) is mutated in
place; an unknown id leaves the table unchanged and returns `none`. -/
def update_publication_status (pubs : List Publication) (pubId : Nat)
    (status : PublicationStatus) (error_message : Option String)
    (metadata : Option ExtraData) (now : Nat) :
    List Publication × Option Publication :=
  match pubs with
  | [] => ([], none)
  | p :: rest =>
    if p.id = pubId then
      (applyStatusUpdate p status error_message metadata now :: rest,
       some (applyStatusUpdate p status error_message metadata now))
    else
      let r := update_publication_status rest pubId status error_message metadata now
      (p :: r.1, r.2)

/-- `PostService.update_post_status`
(`src/api/services/post_service.py` lines 103-120): mutate the first post
with the given id, no-op when the id is unknown. -/
def update_post_status (posts : List Post) (postId : Nat)
    (status : PostStatus) : List Post :=
  match posts with
  | [] => []
  | q :: rest =>
    if q.id = postId then { q with status := status } :: rest
    else q :: update_post_status rest postId status

/-- `PublicationService.get_publication`: first row with the given id. -/
def findPub (pubs : List Publication) (pubId : Nat) : Option Publication :=
  pubs.find? (fun p => p.id == pubId)

/-- The status count of `_update_post_status_after_publication`
(`src/queue/tasks.py` lines 137-140):
`sum(1 for p in publications if p.status == s)`. -/
def countStatus (s : PublicationStatus) (statuses : List PublicationStatus) : Nat :=
  (statuses.filter (fun t => t == s)).length

/-- The decision chain of `_update_post_status_after_publication`
(`src/queue/tasks.py` lines 136-161), as a function of the statuses of the
post's publications.  `none` models the fall-through where `new_status`
stays `None` and the post is not updated. -/
def resolve (statuses : List PublicationStatus) : Option PostStatus :=
  if countStatus PublicationStatus.published statuses = statuses.length then
    some PostStatus.published
  else if countStatus PublicationStatus.failed statuses = statuses.length then
    some PostStatus.failed
  else if 0 < countStatus PublicationStatus.processing statuses ∨
          0 < countStatus PublicationStatus.pending statuses then
    some PostStatus.processing
  else if 0 < countStatus PublicationStatus.published statuses then
    some PostStatus.published
  else if 0 < countStatus PublicationStatus.failed statuses then
    some PostStatus.failed
  else none

/-- The resolver rules exactly as the specification words them (spec §4.2),
used to compare the specified chain against the implemented one.  The
specification promises the chain is exhaustive on non-empty input, so its
final rule is the `failed > 0 → FAILED` case. -/
def specResolve (statuses : List PublicationStatus) : PostStatus :=
  if countStatus PublicationStatus.published statuses = statuses.length then
    PostStatus.published
  else if countStatus PublicationStatus.failed statuses = statuses.length then
    PostStatus.failed
  else if 0 < countStatus PublicationStatus.processing statuses ∨
          0 < countStatus PublicationStatus.pending statuses then
    PostStatus.processing
  else if 0 < countStatus PublicationStatus.published statuses then
    PostStatus.published
  else PostStatus.failed

/-- The database state the core manipulates: the `publications` and
`posts` tables. -/
structure State where
  pubs : List Publication
  posts : List Post
deriving DecidableEq, Repr

/-- `_update_post_status_after_publication` (`src/queue/tasks.py` lines
104-168): look the publication up, fetch its post's publications, run the
decision chain, and update the post when a new status was determined.
An unknown publication id, or a `None` decision, leaves the state
unchanged. -/
def updatePostStatusAfterPublication (st : State) (pubId : Nat) : State :=
  match findPub st.pubs pubId with
  | none => st
  | some pub =>
    let pubsOfPost := st.pubs.filter (fun p => p.post_id == pub.post_id)
    if pubsOfPost.isEmpty then st
    else
      match resolve (pubsOfPost.map (·.status)) with
      | some ns => { st with posts := update_post_status st.posts pub.post_id ns }
      | none => st

/-- Outcome of one per-network publish helper before/at the platform call:
either it rejects the request up front (a `ValueError` raised before any
platform traffic) or it proceeds to the external platform call. -/
inductive PublishStep where
  | validationError (msg : String)
  | platformCall
deriving DecidableEq, Repr

/-- The media gates of `_publish_to_facebook` / `_publish_to_instagram` /
`_publish_to_linkedin` / `_publish_to_tiktok` / `_publish_to_whatsapp`
(`src/queue/tasks.py` lines 178-327): whether the helper rejects the
request before reaching the platform call, as a function of the network,
the content, the optional `image_url` (Python-falsy when `None` or `""`)
and the filesystem (`os.path.exists`).  Facebook and LinkedIn branch on
the media only to pick between their image and text platform calls;
Instagram and WhatsApp raise when the media is falsy; TikTok raises when
the media is falsy and also when it is neither a `temp_images/` path nor
an existing local file. -/
def publishMediaGate (network : SocialNetwork) (_content : String)
    (image_url : Option String) (fileExists : String → Bool) : PublishStep :=
  match network with
  | SocialNetwork.facebook => PublishStep.platformCall
  | SocialNetwork.linkedin => PublishStep.platformCall
  | SocialNetwork.instagram =>
    if !strTruthy image_url then
      PublishStep.validationError "Instagram requiere una imagen"
    else PublishStep.platformCall
  | SocialNetwork.whatsapp =>
    if !strTruthy image_url then
      PublishStep.validationError "WhatsApp requiere una imagen o video"
    else PublishStep.platformCall
  | SocialNetwork.tiktok =>
    if !strTruthy image_url then
      PublishStep.validationError "TikTok requiere un video para publicar."
    else
      let url := image_url.getD ""
      if url.startsWith "temp_images/" || url.startsWith "./temp_images/" then
        PublishStep.platformCall
      else if fileExists url then PublishStep.platformCall
      else PublishStep.validationError "TikTok requiere un video local."

/-- One execution of the body of `publish_to_network_task`
(`src/queue/tasks.py` lines 40-97): persist PROCESSING, perform the
platform call (its outcome is the opaque parameter `outcome`), then on
success persist PUBLISHED with the adapter result as metadata and run the
resolver, and on failure persist FAILED with the error text and run the
resolver.  Returns the new state and whether the execution succeeded. -/
def taskExecution (st : State) (pubId : Nat)
    (outcome : Except String ExtraData) (now : Nat) : State × Bool :=
  let pubs1 := (update_publication_status st.pubs pubId
    PublicationStatus.processing none none now).1
  match outcome with
  | Except.ok result =>
    let pubs2 := (update_publication_status pubs1 pubId
      PublicationStatus.published none (some result) now).1
    (updatePostStatusAfterPublication { pubs := pubs2, posts := st.posts } pubId, true)
  | Except.error msg =>
    let pubs2 := (update_publication_status pubs1 pubId
      PublicationStatus.failed (some msg) none now).1
    (updatePostStatusAfterPublication { pubs := pubs2, posts := st.posts } pubId, false)

/-- The Celery driver around `publish_to_network_task`, modelled from
Celery's documented retry semantics for `@celery_app.task(bind=True,
max_retries=3)` with `self.retry(exc=exc, countdown=60)`
(`src/queue/tasks.py` lines 15 and 97): run the task body; on success
stop; on failure, while the number of retries already performed is below
`max_retries`, schedule one more run after a fixed 60-second countdown,
otherwise stop (`MaxRetriesExceededError`).  `outcome i` is the platform
result of the `i`-th execution and `times i` its clock.  Returns the final
state, the number of executions performed, and the list of scheduled
retry countdowns. -/
def celeryDrive (outcome : Nat → Except String ExtraData)
    (times : Nat → Nat) (pubId : Nat) :
    Nat → Nat → State → State × Nat × List Nat
  | i, retriesLeft, st =>
    let r := taskExecution st pubId (outcome i) (times i)
    if r.2 then (r.1, 1, [])
    else
      match retriesLeft with
      | 0 => (r.1, 1, [])
      | n + 1 =>
        let rec' := celeryDrive outcome times pubId (i + 1) n r.1
        (rec'.1, rec'.2.1 + 1, 60 :: rec'.2.2)

/-- A full delivery of one enqueued publish task: the initial execution
plus up to `max_retries = 3` Celery retries. -/
def runPublishTask (outcome : Nat → Except String ExtraData)
    (times : Nat → Nat) (pubId : Nat) (st : State) : State × Nat × List Nat :=
  celeryDrive outcome times pubId 0 3 st

/-- The `extra_data` written by the manual retry route:
`{"task_id": task.id, "retry": True}`. -/
def retryMetadata (taskId : String) : ExtraData :=
  [("task_id", taskId), ("retry", "True")]

/-- `retry_publication` (`src/api/routes/posts_routes.py` lines 345-409):
unknown id → HTTP 404, nothing enqueued, state unchanged; status outside
{FAILED, PENDING} → HTTP 400, nothing enqueued, state unchanged;
otherwise the task is enqueued again and the publication is set to
PROCESSING with `{"task_id": ..., "retry": True}` as metadata.  The result
carries the new state, the HTTP error (if any) and whether a task was
enqueued. -/
def retry_publication (st : State) (pubId : Nat) (taskId : String)
    (now : Nat) : State × Option Nat × Bool :=
  match findPub st.pubs pubId with
  | none => (st, some 404, false)
  | some pub =>
    if !(pub.status = PublicationStatus.failed ∨
         pub.status = PublicationStatus.pending : Bool) then
      (st, some 400, false)
    else
      let pubs2 := (update_publication_status st.pubs pubId
        PublicationStatus.processing none (some (retryMetadata taskId)) now).1
      ({ pubs := pubs2, posts := st.posts }, none, true)

/-- `publish_video_to_tiktok` (`src/api/routes/posts_routes.py` lines
609-725) restricted to its state effects when a `post_id` is supplied:
pick the post's first TikTok publication regardless of its current
status, mark it PROCESSING, then depending on the upload outcome mark it
PUBLISHED with the backend result as metadata and run the resolver, or
mark it FAILED with the error text (the failure paths return the HTTP
error without running the resolver).  Without a TikTok publication the
state is untouched. -/
def publishVideoToTiktok (st : State) (postId : Nat)
    (outcome : Except String ExtraData) (now1 now2 : Nat) : State :=
  let publications := st.pubs.filter (fun p => p.post_id == postId)
  match publications.find? (fun p => p.network == SocialNetwork.tiktok) with
  | none => st
  | some tp =>
    let pubs1 := (update_publication_status st.pubs tp.id
      PublicationStatus.processing none none now1).1
    match outcome with
    | Except.ok result =>
      let pubs2 := (update_publication_status pubs1 tp.id
        PublicationStatus.published none (some result) now2).1
      updatePostStatusAfterPublication { pubs := pubs2, posts := st.posts } tp.id
    | Except.error msg =>
      { pubs := (update_publication_status pubs1 tp.id
          PublicationStatus.failed (some msg) none now2).1,
        posts := st.posts }

/-- A freshly created publication row, as inserted by
`PublicationService.create_publication`: status PENDING, NULL
`published_at` and `error_message`, empty `extra_data`. -/
def newPublication (id postId : Nat) (network : SocialNetwork)
    (content : String) : Publication :=
  { id := id, post_id := postId, network := network,
    adapted_content := content, status := PublicationStatus.pending,
    published_at := none, error_message := none, extra_data := [] }

/-- The database states reachable through the API surface of the core:
post creation, content adaptation (publication creation plus the post
moving to PROCESSING), enqueueing a pending publication, the asynchronous
task body, the manual retry route, and the publish-to-TikTok route. -/
inductive Reachable : State → Prop where
  | init : Reachable { pubs := [], posts := [] }
  | create_post (st : State) (pid : Nat) : Reachable st →
      Reachable { pubs := st.pubs,
                  posts := st.posts ++ [{ id := pid, status := PostStatus.draft }] }
  | create_publication (st : State) (id postId : Nat)
      (network : SocialNetwork) (content : String) : Reachable st →
      Reachable { pubs := st.pubs ++ [newPublication id postId network content],
                  posts := st.posts }
  | adapt_post_processing (st : State) (pid : Nat) : Reachable st →
      Reachable { pubs := st.pubs,
                  posts := update_post_status st.posts pid PostStatus.processing }
  | enqueue_pending (st : State) (pubId : Nat) (taskId : String) (now : Nat)
      (pub : Publication) : Reachable st →
      findPub st.pubs pubId = some pub →
      pub.status = PublicationStatus.pending →
      Reachable { pubs := (update_publication_status st.pubs pubId
                    PublicationStatus.processing none
                    (some [("task_id", taskId)]) now).1,
                  posts := st.posts }
  | enqueue_failed (st : State) (pubId : Nat) (msg : String) (now : Nat)
      (pub : Publication) : Reachable st →
      findPub st.pubs pubId = some pub →
      pub.status = PublicationStatus.pending →
      Reachable { pubs := (update_publication_status st.pubs pubId
                    PublicationStatus.failed (some msg) none now).1,
                  posts := st.posts }
  | task_run (st : State) (pubId : Nat) (outcome : Except String ExtraData)
      (now : Nat) : Reachable st →
      Reachable (taskExecution st pubId outcome now).1
  | retry (st : State) (pubId : Nat) (taskId : String) (now : Nat) :
      Reachable st →
      Reachable (retry_publication st pubId taskId now).1
  | tiktok_route (st : State) (postId : Nat)
      (outcome : Except String ExtraData) (now1 now2 : Nat) : Reachable st →
      Reachable (publishVideoToTiktok st postId outcome now1 now2)

/-! ### Helper lemmas about the resolver -/

/-- Every publication status is counted by exactly one of the four
counters, so the counters sum to the number of publications. -/
lemma countStatus_sum (l : List PublicationStatus) :
    countStatus PublicationStatus.pending l +
    countStatus PublicationStatus.processing l +
    countStatus PublicationStatus.published l +
    countStatus PublicationStatus.failed l = l.length := by
  induction l with
  | nil => rfl
  | cons a t ih =>
    cases a <;> simp [countStatus, List.filter_cons] at * <;> omega

/-- On non-empty input, the implemented decision chain computes exactly
the status described by the specification's rule chain: the `new_status =
None` fall-through of the code is unreachable. -/
lemma resolve_eq_spec {statuses : List PublicationStatus}
    (h : statuses ≠ []) : resolve statuses = some (specResolve statuses) := by
  have hsum := countStatus_sum statuses
  have hlen : 0 < statuses.length := List.length_pos.mpr h
  unfold resolve specResolve
  split_ifs with h1 h2 h3 h4 h5 <;> try rfl
  exfalso
  omega

/-- The specified chain only ever produces PROCESSING, PUBLISHED or
FAILED. -/
lemma specResolve_cases (l : List PublicationStatus) :
    specResolve l = PostStatus.processing ∨
    specResolve l = PostStatus.published ∨
    specResolve l = PostStatus.failed := by
  unfold specResolve
  split_ifs <;> simp

/-- Per-status counts are invariant under permutation of the input. -/
lemma countStatus_perm (s : PublicationStatus)
    {l₁ l₂ : List PublicationStatus} (h : l₁.Perm l₂) :
    countStatus s l₁ = countStatus s l₂ :=
  (h.filter _).length_eq

/-! ### C1, C7, C9 — resolver claims -/

/-- Claim C1: for every non-empty list of a post's publications the
implemented resolver assigns the post status by exactly the specified
ordered rule chain (all-published → PUBLISHED; else all-failed → FAILED;
else any processing/pending → PROCESSING; else any published → PUBLISHED;
else FAILED), and in particular
`resolve [PUBLISHED, FAILED] = PUBLISHED`,
`resolve [PENDING] = PROCESSING`, and
`resolve [PUBLISHED, PENDING] = PROCESSING`. -/
theorem resolver_follows_spec_chain :
    (∀ statuses : List PublicationStatus, statuses ≠ [] →
      resolve statuses = some (specResolve statuses))
    ∧ resolve [PublicationStatus.published, PublicationStatus.failed] =
        some PostStatus.published
    ∧ resolve [PublicationStatus.pending] = some PostStatus.processing
    ∧ resolve [PublicationStatus.published, PublicationStatus.pending] =
        some PostStatus.processing :=
  ⟨fun _ h => resolve_eq_spec h, by decide, by decide, by decide⟩

/-- Witness for C1 at the concrete input `[FAILED, FAILED]`. -/
theorem resolver_follows_spec_chain_witness :
    resolve [PublicationStatus.failed, PublicationStatus.failed] =
      some (specResolve [PublicationStatus.failed, PublicationStatus.failed]) :=
  resolver_follows_spec_chain.1 _ (by decide)

/-- Claim C7: the resolver result depends only on the multiset of the
statuses — permuting the (non-empty) input list never changes the
result. -/
theorem resolve_perm_invariant :
    ∀ l₁ l₂ : List PublicationStatus, l₁ ≠ [] → l₁.Perm l₂ →
      resolve l₁ = resolve l₂ := by
  intro l₁ l₂ _ h
  unfold resolve
  rw [h.length_eq, countStatus_perm PublicationStatus.published h,
    countStatus_perm PublicationStatus.failed h,
    countStatus_perm PublicationStatus.processing h,
    countStatus_perm PublicationStatus.pending h]

/-- Witness for C7 at the concrete swap
`[PUBLISHED, FAILED] ~ [FAILED, PUBLISHED]`. -/
theorem resolve_perm_invariant_witness :
    resolve [PublicationStatus.published, PublicationStatus.failed] =
      resolve [PublicationStatus.failed, PublicationStatus.published] :=
  resolve_perm_invariant _ _ (by decide)
    (List.Perm.swap PublicationStatus.failed PublicationStatus.published [])

/-- Claim C9: post-status recomputation is total on non-empty input —
some branch of the chain always fires and yields PROCESSING, PUBLISHED or
FAILED (never DRAFT, never the `None` fall-through) — while an unknown
publication id leaves the state unchanged. -/
theorem resolver_total_on_nonempty :
    (∀ statuses : List PublicationStatus, statuses ≠ [] →
      ∃ s, resolve statuses = some s ∧
        (s = PostStatus.processing ∨ s = PostStatus.published ∨
         s = PostStatus.failed))
    ∧ (∀ (st : State) (pubId : Nat), findPub st.pubs pubId = none →
        updatePostStatusAfterPublication st pubId = st) := by
  constructor
  · intro statuses h
    exact ⟨specResolve statuses, resolve_eq_spec h, specResolve_cases statuses⟩
  · intro st pubId h
    unfold updatePostStatusAfterPublication
    rw [h]

/-- Witness for C9: a concrete mixed input resolves, and the helper is a
no-op on a state without the requested publication. -/
theorem resolver_total_on_nonempty_witness :
    (∃ s, resolve [PublicationStatus.pending, PublicationStatus.failed] =
        some s ∧
        (s = PostStatus.processing ∨ s = PostStatus.published ∨
         s = PostStatus.failed))
    ∧ updatePostStatusAfterPublication { pubs := [], posts := [] } 7 =
        { pubs := [], posts := [] } :=
  ⟨resolver_total_on_nonempty.1 _ (by decide),
   resolver_total_on_nonempty.2 _ 7 (by decide)⟩

/-! ### Helper lemmas about `update_publication_status` -/

lemma applyStatusUpdate_id (p : Publication) (s : PublicationStatus)
    (em : Option String) (md : Option ExtraData) (now : Nat) :
    (applyStatusUpdate p s em md now).id = p.id := by
  unfold applyStatusUpdate
  split_ifs <;> rfl

lemma applyStatusUpdate_status (p : Publication) (s : PublicationStatus)
    (em : Option String) (md : Option ExtraData) (now : Nat) :
    (applyStatusUpdate p s em md now).status = s := by
  unfold applyStatusUpdate
  split_ifs <;> rfl

lemma applyStatusUpdate_published_at (p : Publication)
    (s : PublicationStatus) (em : Option String) (md : Option ExtraData)
    (now : Nat) :
    (applyStatusUpdate p s em md now).published_at =
      if s = PublicationStatus.published then some now else p.published_at := by
  unfold applyStatusUpdate
  split_ifs <;> rfl

lemma applyStatusUpdate_error_message (p : Publication)
    (s : PublicationStatus) (em : Option String) (md : Option ExtraData)
    (now : Nat) :
    (applyStatusUpdate p s em md now).error_message =
      if strTruthy em then em else p.error_message := by
  unfold applyStatusUpdate
  split_ifs <;> rfl

lemma applyStatusUpdate_extra_data (p : Publication)
    (s : PublicationStatus) (em : Option String) (md : Option ExtraData)
    (now : Nat) :
    (applyStatusUpdate p s em md now).extra_data =
      if mapTruthy md then md.getD [] else p.extra_data := by
  unfold applyStatusUpdate
  split_ifs <;> rfl

/-- The record returned by `update_publication_status` is the found row
with the field mutations applied. -/
lemma update_pub_snd (pubs : List Publication) (pubId : Nat)
    (s : PublicationStatus) (em : Option String) (md : Option ExtraData)
    (now : Nat) :
    (update_publication_status pubs pubId s em md now).2 =
      (findPub pubs pubId).map (fun p => applyStatusUpdate p s em md now) := by
  induction pubs with
  | nil => rfl
  | cons p rest ih =>
    by_cases h : p.id = pubId <;>
      simp [update_publication_status, findPub, List.find?_cons, h, ih]

/-- Looking the row up after `update_publication_status` sees exactly the
mutated row (both the update and the lookup take the first id match). -/
lemma findPub_update (pubs : List Publication) (pubId : Nat)
    (s : PublicationStatus) (em : Option String) (md : Option ExtraData)
    (now : Nat) :
    findPub (update_publication_status pubs pubId s em md now).1 pubId =
      (findPub pubs pubId).map (fun p => applyStatusUpdate p s em md now) := by
  induction pubs with
  | nil => rfl
  | cons p rest ih =>
    by_cases h : p.id = pubId
    · simp [update_publication_status, findPub, List.find?_cons, h,
        applyStatusUpdate_id]
    · simp only [update_publication_status, h, if_false]
      simpa [findPub, List.find?_cons, h] using ih

/-- The aggregate-status recomputation touches only the `posts` table. -/
lemma updatePostStatusAfterPublication_pubs (st : State) (pubId : Nat) :
    (updatePostStatusAfterPublication st pubId).pubs = st.pubs := by
  unfold updatePostStatusAfterPublication
  cases findPub st.pubs pubId with
  | none => rfl
  | some pub =>
    simp only
    split_ifs
    · rfl
    · cases resolve ((st.pubs.filter
        (fun p => p.post_id == pub.post_id)).map (·.status)) <;> rfl

/-! ### C2 — metadata handling of `update_publication_status` -/

/-- A publication carrying earlier `extra_data` under the key `"a"`. -/
def c2pub : Publication :=
  { id := 1, post_id := 0, network := SocialNetwork.facebook,
    adapted_content := "c", status := PublicationStatus.processing,
    published_at := none, error_message := none,
    extra_data := [("a", "1")] }

/-- Counterexample for C2: the key `"a"` is present in the existing
`extra_data` and absent from the metadata argument, yet it is gone after
the update — `update_publication_status` assigns the metadata wholesale
instead of merging it. -/
theorem update_metadata_not_merged :
    lookupKey c2pub.extra_data "a" = some "1"
    ∧ lookupKey [("b", "2")] "a" = none
    ∧ ((update_publication_status [c2pub] 1 PublicationStatus.published
          none (some [("b", "2")]) 5).2.map
        (fun q => lookupKey q.extra_data "a")) = some none := by
  refine ⟨rfl, rfl, ?_⟩
  decide

/-- Claim C2 as amended: a truthy metadata argument replaces the
publication's `extra_data` wholesale (previously present keys are
discarded), a falsy one leaves `extra_data` untouched; `published_at` is
set to the current time iff the new status is PUBLISHED, and a truthy
error message is stored. -/
theorem update_metadata_replaces :
    ∀ (pubs : List Publication) (pubId : Nat) (s : PublicationStatus)
      (em : Option String) (md : Option ExtraData) (now : Nat)
      (p : Publication),
      findPub pubs pubId = some p →
      ∃ q, (update_publication_status pubs pubId s em md now).2 = some q
        ∧ q.extra_data = (if mapTruthy md then md.getD [] else p.extra_data)
        ∧ q.published_at =
            (if s = PublicationStatus.published then some now else p.published_at)
        ∧ q.error_message = (if strTruthy em then em else p.error_message)
        ∧ q.status = s := by
  intro pubs pubId s em md now p h
  refine ⟨applyStatusUpdate p s em md now, ?_, ?_, ?_, ?_, ?_⟩
  · rw [update_pub_snd, h]
    rfl
  · exact applyStatusUpdate_extra_data p s em md now
  · exact applyStatusUpdate_published_at p s em md now
  · exact applyStatusUpdate_error_message p s em md now
  · exact applyStatusUpdate_status p s em md now

/-- Witness for C2 (amended) at a concrete publication and metadata. -/
theorem update_metadata_replaces_witness :
    ∃ q, (update_publication_status [c2pub] 1 PublicationStatus.published
        none (some [("b", "2")]) 5).2 = some q
      ∧ q.extra_data = (if mapTruthy (some [("b", "2")]) then
          (some ([("b", "2")] : ExtraData)).getD [] else c2pub.extra_data)
      ∧ q.published_at = (if PublicationStatus.published =
          PublicationStatus.published then some 5 else c2pub.published_at)
      ∧ q.error_message = (if strTruthy none then none else c2pub.error_message)
      ∧ q.status = PublicationStatus.published :=
  update_metadata_replaces [c2pub] 1 PublicationStatus.published none
    (some [("b", "2")]) 5 c2pub (by decide)

/-! ### C10 — `error_message` is never cleared -/

/-- Claim C10: `update_publication_status` never clears `error_message`:
whenever no truthy message is supplied, the previous message survives the
update, whatever the new status is — so a PUBLISHED publication can keep
the error text of an earlier failed attempt. -/
theorem error_message_never_cleared :
    ∀ (pubs : List Publication) (pubId : Nat) (s : PublicationStatus)
      (em : Option String) (md : Option ExtraData) (now : Nat)
      (p : Publication),
      strTruthy em = false →
      findPub pubs pubId = some p →
      ∃ q, (update_publication_status pubs pubId s em md now).2 = some q
        ∧ q.error_message = p.error_message
        ∧ q.status = s := by
  intro pubs pubId s em md now p hem h
  refine ⟨applyStatusUpdate p s em md now, ?_, ?_, ?_⟩
  · rw [update_pub_snd, h]
    rfl
  · rw [applyStatusUpdate_error_message, hem]
    rfl
  · exact applyStatusUpdate_status p s em md now

/-- A publication left FAILED with an error text by an earlier attempt. -/
def c10pub : Publication :=
  { id := 1, post_id := 0, network := SocialNetwork.facebook,
    adapted_content := "c", status := PublicationStatus.failed,
    published_at := none, error_message := some "boom",
    extra_data := [] }

/-- Witness for C10: marking the failed publication PUBLISHED without a
new message leaves the old error text in place. -/
theorem error_message_never_cleared_witness :
    ∃ q, (update_publication_status [c10pub] 1 PublicationStatus.published
        none none 5).2 = some q
      ∧ q.error_message = some "boom"
      ∧ q.status = PublicationStatus.published :=
  error_message_never_cleared [c10pub] 1 PublicationStatus.published none
    none 5 c10pub rfl (by decide)

/-! ### C5 — repeating a terminal update -/

lemma applyStatusUpdate_twice_of_ne (p : Publication)
    (s : PublicationStatus) (em : Option String) (md : Option ExtraData)
    (t1 t2 : Nat) (h : s ≠ PublicationStatus.published) :
    applyStatusUpdate (applyStatusUpdate p s em md t1) s em md t2 =
      applyStatusUpdate p s em md t1 := by
  cases p
  unfold applyStatusUpdate
  split_ifs <;> simp_all

lemma applyStatusUpdate_twice_published (p : Publication)
    (em : Option String) (md : Option ExtraData) (t1 t2 : Nat) :
    applyStatusUpdate (applyStatusUpdate p PublicationStatus.published em md t1)
        PublicationStatus.published em md t2 =
      { applyStatusUpdate p PublicationStatus.published em md t1 with
        published_at := some t2 } := by
  cases p
  unfold applyStatusUpdate
  split_ifs <;> simp_all

lemma update_idem_db (pubs : List Publication) (pubId : Nat)
    (s : PublicationStatus) (em : Option String) (md : Option ExtraData)
    (t1 t2 : Nat) (h : s ≠ PublicationStatus.published) :
    update_publication_status
        (update_publication_status pubs pubId s em md t1).1 pubId s em md t2 =
      update_publication_status pubs pubId s em md t1 := by
  induction pubs with
  | nil => rfl
  | cons p rest ih =>
    by_cases hid : p.id = pubId
    · simp [update_publication_status, hid, applyStatusUpdate_id,
        applyStatusUpdate_twice_of_ne p s em md t1 t2 h]
    · simp only [update_publication_status, hid, if_false]
      simp only [update_publication_status, hid, if_false] at ih ⊢
      rw [ih]

/-- Claim C5 as amended: repeating `update_publication_status` with the
same FAILED status, message and metadata is idempotent (the whole table
and the returned record are unchanged), but repeating it with PUBLISHED
is not — the second call overwrites `published_at` with its own current
time, leaving every other field unchanged. -/
theorem update_terminal_repeat :
    (∀ (pubs : List Publication) (pubId : Nat) (em : Option String)
       (md : Option ExtraData) (t1 t2 : Nat),
       update_publication_status
           (update_publication_status pubs pubId PublicationStatus.failed
             em md t1).1 pubId PublicationStatus.failed em md t2 =
         update_publication_status pubs pubId PublicationStatus.failed em md t1)
    ∧ (∀ (pubs : List Publication) (pubId : Nat) (em : Option String)
         (md : Option ExtraData) (t1 t2 : Nat) (p1 : Publication),
         (update_publication_status pubs pubId PublicationStatus.published
           em md t1).2 = some p1 →
         (update_publication_status
             (update_publication_status pubs pubId PublicationStatus.published
               em md t1).1 pubId PublicationStatus.published em md t2).2 =
           some { p1 with published_at := some t2 }) := by
  constructor
  · intro pubs pubId em md t1 t2
    exact update_idem_db pubs pubId PublicationStatus.failed em md t1 t2
      (by decide)
  · intro pubs pubId em md t1 t2 p1 h1
    rw [update_pub_snd] at h1 ⊢
    rw [findPub_update]
    cases hfind : findPub pubs pubId with
    | none => rw [hfind] at h1; exact absurd h1 (by simp)
    | some p0 =>
      rw [hfind] at h1
      simp only [Option.map_some'] at h1 ⊢
      injection h1 with h1
      rw [applyStatusUpdate_twice_published, h1]

/-- A pending publication used by the C5 scenarios. -/
def c5pub : Publication := newPublication 1 0 SocialNetwork.facebook "c"

/-- Counterexample for C5: two successive PUBLISHED updates with the same
metadata at clock times 1 and 2 — the second call overwrites
`published_at` with the later time, so the record does not stay
unchanged. -/
theorem update_published_at_drifts :
    ((update_publication_status [c5pub] 1 PublicationStatus.published none
        (some [("k", "v")]) 1).2.map (·.published_at)) = some (some 1)
    ∧ ((update_publication_status
        (update_publication_status [c5pub] 1 PublicationStatus.published none
          (some [("k", "v")]) 1).1 1 PublicationStatus.published none
        (some [("k", "v")]) 2).2.map (·.published_at)) = some (some 2) := by
  constructor <;> decide

/-- Witness for C5 (amended) at a concrete publication and clock times. -/
theorem update_terminal_repeat_witness :
    (update_publication_status
        (update_publication_status [c5pub] 1 PublicationStatus.published
          none none 3).1 1 PublicationStatus.published none none 4).2 =
      some { applyStatusUpdate c5pub PublicationStatus.published none none 3 with
             published_at := some 4 } :=
  update_terminal_repeat.2 [c5pub] 1 none none 3 4
    (applyStatusUpdate c5pub PublicationStatus.published none none 3)
    (by decide)

/-! ### C3 — per-network media requirements -/

/-- Counterexample for C3: publishing to WhatsApp with no media is not
accepted — `_publish_to_whatsapp` rejects the request before any platform
call, just like Instagram and TikTok. -/
theorem whatsapp_rejects_text_only :
    publishMediaGate SocialNetwork.whatsapp "hola" none (fun _ => false) =
      PublishStep.validationError "WhatsApp requiere una imagen o video"
    ∧ publishMediaGate SocialNetwork.whatsapp "hola" none (fun _ => false) ≠
      PublishStep.platformCall := by
  exact ⟨rfl, by decide⟩

/-- Claim C3 as amended: for every content string, a missing (Python-falsy)
media value is rejected with a validation error by Instagram, TikTok and
WhatsApp, while Facebook and LinkedIn always proceed to the platform call;
with truthy media, Instagram and WhatsApp proceed to the platform call as
well. -/
theorem media_gate_requirements :
    ∀ (content : String) (fe : String → Bool) (url : Option String),
      publishMediaGate SocialNetwork.facebook content url fe =
        PublishStep.platformCall
      ∧ publishMediaGate SocialNetwork.linkedin content url fe =
          PublishStep.platformCall
      ∧ (strTruthy url = false →
          publishMediaGate SocialNetwork.instagram content url fe =
            PublishStep.validationError "Instagram requiere una imagen"
          ∧ publishMediaGate SocialNetwork.whatsapp content url fe =
            PublishStep.validationError "WhatsApp requiere una imagen o video"
          ∧ publishMediaGate SocialNetwork.tiktok content url fe =
            PublishStep.validationError "TikTok requiere un video para publicar.")
      ∧ (strTruthy url = true →
          publishMediaGate SocialNetwork.instagram content url fe =
            PublishStep.platformCall
          ∧ publishMediaGate SocialNetwork.whatsapp content url fe =
            PublishStep.platformCall) := by
  intro content fe url
  refine ⟨rfl, rfl, ?_, ?_⟩
  · intro h
    refine ⟨?_, ?_, ?_⟩ <;> simp [publishMediaGate, h]
  · intro h
    refine ⟨?_, ?_⟩ <;> simp [publishMediaGate, h]

/-- Witness for C3 (amended) at concrete content with no media. -/
theorem media_gate_requirements_witness :
    publishMediaGate SocialNetwork.facebook "hola" none (fun _ => false) =
      PublishStep.platformCall
    ∧ publishMediaGate SocialNetwork.instagram "hola" none (fun _ => false) =
        PublishStep.validationError "Instagram requiere una imagen"
    ∧ publishMediaGate SocialNetwork.tiktok "hola" none (fun _ => false) =
        PublishStep.validationError "TikTok requiere un video para publicar."
    ∧ publishMediaGate SocialNetwork.instagram "hola" (some "u")
        (fun _ => false) = PublishStep.platformCall :=
  ⟨(media_gate_requirements "hola" (fun _ => false) none).1,
   ((media_gate_requirements "hola" (fun _ => false) none).2.2.1 rfl).1,
   ((media_gate_requirements "hola" (fun _ => false) none).2.2.1 rfl).2.2,
   ((media_gate_requirements "hola" (fun _ => false) (some "u")).2.2.2
     rfl).1⟩

/-! ### C6 — the manual retry route -/

/-- Claim C6: manual retry is rejected with HTTP 404 when the publication
id is unknown; rejected with HTTP 400, no enqueue and an unchanged state
when the current status is PROCESSING or PUBLISHED; and accepted exactly
when the current status is FAILED or PENDING, in which case a fresh task
is enqueued and the publication is reset to PROCESSING. -/
theorem retry_gating :
    ∀ (st : State) (pubId : Nat) (taskId : String) (now : Nat),
      (findPub st.pubs pubId = none →
        retry_publication st pubId taskId now = (st, some 404, false))
      ∧ (∀ pub, findPub st.pubs pubId = some pub →
          (pub.status = PublicationStatus.processing ∨
           pub.status = PublicationStatus.published) →
          retry_publication st pubId taskId now = (st, some 400, false))
      ∧ (∀ pub, findPub st.pubs pubId = some pub →
          (pub.status = PublicationStatus.failed ∨
           pub.status = PublicationStatus.pending) →
          (retry_publication st pubId taskId now).2.1 = none
          ∧ (retry_publication st pubId taskId now).2.2 = true
          ∧ findPub (retry_publication st pubId taskId now).1.pubs pubId =
              some (applyStatusUpdate pub PublicationStatus.processing none
                (some (retryMetadata taskId)) now)
          ∧ (applyStatusUpdate pub PublicationStatus.processing none
              (some (retryMetadata taskId)) now).status =
              PublicationStatus.processing
          ∧ (retry_publication st pubId taskId now).1.posts = st.posts) := by
  intro st pubId taskId now
  refine ⟨?_, ?_, ?_⟩
  · intro h
    unfold retry_publication
    rw [h]
  · intro pub h hs
    have hns : ¬(pub.status = PublicationStatus.failed ∨
        pub.status = PublicationStatus.pending) := by
      rcases hs with h1 | h1 <;> simp [h1]
    unfold retry_publication
    rw [h]
    simp [hns]
  · intro pub h hs
    have hb : decide (pub.status = PublicationStatus.failed ∨
        pub.status = PublicationStatus.pending) = true := decide_eq_true hs
    unfold retry_publication
    rw [h]
    simp only [hb, Bool.not_true, Bool.false_eq_true, if_false]
    refine ⟨trivial, trivial, ?_, applyStatusUpdate_status _ _ _ _ _, trivial⟩
    rw [findPub_update, h]
    rfl

/-- A FAILED publication for the C6 witness. -/
def c6pub : Publication :=
  { id := 1, post_id := 0, network := SocialNetwork.linkedin,
    adapted_content := "c", status := PublicationStatus.failed,
    published_at := none, error_message := some "err",
    extra_data := [] }

/-- Witness for C6: concrete 404, 400 and accept scenarios. -/
theorem retry_gating_witness :
    retry_publication { pubs := [c6pub], posts := [] } 9 "t1" 3 =
      ({ pubs := [c6pub], posts := [] }, some 404, false)
    ∧ ((retry_publication { pubs := [c6pub], posts := [] } 1 "t1" 3).2.1 = none
      ∧ (retry_publication { pubs := [c6pub], posts := [] } 1 "t1" 3).2.2 = true
      ∧ findPub (retry_publication { pubs := [c6pub], posts := [] } 1 "t1" 3).1.pubs 1 =
          some (applyStatusUpdate c6pub PublicationStatus.processing none
            (some (retryMetadata "t1")) 3)
      ∧ (applyStatusUpdate c6pub PublicationStatus.processing none
          (some (retryMetadata "t1")) 3).status = PublicationStatus.processing
      ∧ (retry_publication { pubs := [c6pub], posts := [] } 1 "t1" 3).1.posts = []) :=
  ⟨(retry_gating { pubs := [c6pub], posts := [] } 9 "t1" 3).1 (by decide),
   (retry_gating { pubs := [c6pub], posts := [] } 1 "t1" 3).2.2 c6pub
     (by decide) (Or.inl rfl)⟩

/-! ### C4 — `published_at` versus the PUBLISHED status -/

/-- Rows for which PUBLISHED status guarantees a timestamp. -/
def pubOkList (pubs : List Publication) : Prop :=
  ∀ p ∈ pubs, p.status = PublicationStatus.published → p.published_at ≠ none

lemma applyStatusUpdate_pubOk (p : Publication) (s : PublicationStatus)
    (em : Option String) (md : Option ExtraData) (now : Nat) :
    (applyStatusUpdate p s em md now).status = PublicationStatus.published →
    (applyStatusUpdate p s em md now).published_at ≠ none := by
  rw [applyStatusUpdate_status, applyStatusUpdate_published_at]
  intro h
  rw [if_pos h]
  simp

lemma update_preserves_pubOkList (pubs : List Publication) (pubId : Nat)
    (s : PublicationStatus) (em : Option String) (md : Option ExtraData)
    (now : Nat) (hok : pubOkList pubs) :
    pubOkList (update_publication_status pubs pubId s em md now).1 := by
  induction pubs with
  | nil => exact hok
  | cons p rest ih =>
    have hokRest : pubOkList rest := fun q hq => hok q (List.mem_cons_of_mem p hq)
    by_cases hid : p.id = pubId
    · simp only [update_publication_status, hid, if_true]
      intro q hq
      rcases List.mem_cons.mp hq with h1 | h1
      · subst h1
        exact applyStatusUpdate_pubOk p s em md now
      · exact hokRest q h1
    · simp only [update_publication_status, hid, if_false]
      intro q hq
      rcases List.mem_cons.mp hq with h1 | h1
      · subst h1
        exact hok q (List.mem_cons_self q rest)
      · exact ih hokRest q h1

lemma taskExecution_preserves_pubOkList (st : State) (pubId : Nat)
    (outcome : Except String ExtraData) (now : Nat)
    (hok : pubOkList st.pubs) :
    pubOkList (taskExecution st pubId outcome now).1.pubs := by
  unfold taskExecution
  cases outcome with
  | ok result =>
    simp only
    rw [updatePostStatusAfterPublication_pubs]
    exact update_preserves_pubOkList _ _ _ _ _ _
      (update_preserves_pubOkList _ _ _ _ _ _ hok)
  | error msg =>
    simp only
    rw [updatePostStatusAfterPublication_pubs]
    exact update_preserves_pubOkList _ _ _ _ _ _
      (update_preserves_pubOkList _ _ _ _ _ _ hok)

lemma retry_preserves_pubOkList (st : State) (pubId : Nat) (taskId : String)
    (now : Nat) (hok : pubOkList st.pubs) :
    pubOkList (retry_publication st pubId taskId now).1.pubs := by
  unfold retry_publication
  cases findPub st.pubs pubId with
  | none => exact hok
  | some pub =>
    simp only
    split_ifs
    · exact hok
    · exact update_preserves_pubOkList _ _ _ _ _ _ hok

lemma tiktok_preserves_pubOkList (st : State) (postId : Nat)
    (outcome : Except String ExtraData) (now1 now2 : Nat)
    (hok : pubOkList st.pubs) :
    pubOkList (publishVideoToTiktok st postId outcome now1 now2).pubs := by
  unfold publishVideoToTiktok
  cases hf : (st.pubs.filter (fun p => p.post_id == postId)).find?
      (fun p => p.network == SocialNetwork.tiktok) with
  | none =>
    simp only [hf]
    exact hok
  | some tp =>
    simp only [hf]
    cases outcome with
    | ok result =>
      simp only
      rw [updatePostStatusAfterPublication_pubs]
      exact update_preserves_pubOkList _ _ _ _ _ _
        (update_preserves_pubOkList _ _ _ _ _ _ hok)
    | error msg =>
      simp only
      exact update_preserves_pubOkList _ _ _ _ _ _
        (update_preserves_pubOkList _ _ _ _ _ _ hok)

/-- Claim C4 as amended: in every reachable state, a publication in
status PUBLISHED has a non-null `published_at`.  (The converse direction
of the claimed iff, and the claim that no API operation moves a
publication away from PUBLISHED, are refuted by the publish-to-TikTok
route — see the counterexample.) -/
theorem reachable_published_has_timestamp :
    ∀ st : State, Reachable st →
      ∀ p ∈ st.pubs, p.status = PublicationStatus.published →
        p.published_at ≠ none := by
  intro st h
  induction h with
  | init => intro p hp; simp at hp
  | create_post st' pid _ ih => exact ih
  | create_publication st' id postId network content _ ih =>
    intro p hp
    rcases List.mem_append.mp hp with h1 | h1
    · exact ih p h1
    · rw [List.mem_singleton.mp h1]
      intro hs
      simp [newPublication] at hs
  | adapt_post_processing st' pid _ ih => exact ih
  | enqueue_pending st' pubId taskId now pub _ hfind hstat ih =>
    exact update_preserves_pubOkList _ _ _ _ _ _ ih
  | enqueue_failed st' pubId msg now pub _ hfind hstat ih =>
    exact update_preserves_pubOkList _ _ _ _ _ _ ih
  | task_run st' pubId outcome now _ ih =>
    exact taskExecution_preserves_pubOkList st' pubId outcome now ih
  | retry st' pubId taskId now _ ih =>
    exact retry_preserves_pubOkList st' pubId taskId now ih
  | tiktok_route st' postId outcome now1 now2 _ ih =>
    exact tiktok_preserves_pubOkList st' postId outcome now1 now2 ih

/-- Witness for C4 (amended): the invariant applied to the concrete
reachable state in which the TikTok publication has just been published
by its task. -/
theorem reachable_published_has_timestamp_witness :
    ({ id := 1, post_id := 0, network := SocialNetwork.tiktok,
       adapted_content := "c", status := PublicationStatus.published,
       published_at := some 5, error_message := none,
       extra_data := [("k", "v")] } : Publication).published_at ≠ none :=
  reachable_published_has_timestamp _
    (Reachable.task_run _ 1 (Except.ok [("k", "v")]) 5
      (Reachable.create_publication _ 1 0 SocialNetwork.tiktok "c"
        Reachable.init))
    _ (by decide) rfl

/-- Counterexample for C4: a reachable state in which a publication that
was PUBLISHED has been moved to FAILED by the publish-to-TikTok route
while keeping its `published_at` timestamp — so `published_at` non-null
does not imply status PUBLISHED, and the API surface does move a
publication away from PUBLISHED. -/
theorem tiktok_route_moves_published :
    ∃ st : State, Reachable st ∧
      ∃ p, findPub st.pubs 1 = some p
        ∧ p.published_at = some 5
        ∧ p.status = PublicationStatus.failed := by
  refine ⟨_, Reachable.tiktok_route _ 0 (Except.error "e") 7 8
    (Reachable.task_run _ 1 (Except.ok [("k", "v")]) 5
      (Reachable.create_publication _ 1 0 SocialNetwork.tiktok "c"
        Reachable.init)), ?_⟩
  refine ⟨{ id := 1, post_id := 0, network := SocialNetwork.tiktok,
            adapted_content := "c", status := PublicationStatus.failed,
            published_at := some 5, error_message := some "e",
            extra_data := [("k", "v")] }, ?_, rfl, rfl⟩
  decide

/-! ### C8 — attempt budget and backoff of the publish task -/

lemma taskExecution_error_snd (st : State) (pubId : Nat) (msg : String)
    (now : Nat) :
    (taskExecution st pubId (Except.error msg) now).2 = false := rfl

/-- A failing execution leaves the looked-up row as the original row
marked PROCESSING and then FAILED with the message. -/
lemma taskExecution_find_error (st : State) (pubId : Nat) (msg : String)
    (now : Nat) :
    findPub (taskExecution st pubId (Except.error msg) now).1.pubs pubId =
      (findPub st.pubs pubId).map (fun p =>
        applyStatusUpdate
          (applyStatusUpdate p PublicationStatus.processing none none now)
          PublicationStatus.failed (some msg) none now) := by
  unfold taskExecution
  simp only
  rw [updatePostStatusAfterPublication_pubs]
  rw [findPub_update, findPub_update, Option.map_map]
  rfl

/-- The driver performs at most one more execution than it has retries
left. -/
lemma celeryDrive_attempts_le (o : Nat → Except String ExtraData)
    (t : Nat → Nat) (pid : Nat) :
    ∀ (r i : Nat) (st : State),
      (celeryDrive o t pid i r st).2.1 ≤ r + 1 := by
  intro r
  induction r with
  | zero =>
    intro i st
    unfold celeryDrive
    by_cases h : (taskExecution st pid (o i) (t i)).2 <;> simp [h]
  | succ n ih =>
    intro i st
    unfold celeryDrive
    by_cases h : (taskExecution st pid (o i) (t i)).2
    · simp [h]
    · simp only [h, Bool.false_eq_true, if_false]
      have := ih (i + 1) (taskExecution st pid (o i) (t i)).1
      omega

/-- Every scheduled retry countdown is the fixed 60 seconds. -/
lemma celeryDrive_delays (o : Nat → Except String ExtraData)
    (t : Nat → Nat) (pid : Nat) :
    ∀ (r i : Nat) (st : State) (d : Nat),
      d ∈ (celeryDrive o t pid i r st).2.2 → d = 60 := by
  intro r
  induction r with
  | zero =>
    intro i st d hd
    unfold celeryDrive at hd
    by_cases h : (taskExecution st pid (o i) (t i)).2 <;>
      simp [h] at hd
  | succ n ih =>
    intro i st d hd
    unfold celeryDrive at hd
    by_cases h : (taskExecution st pid (o i) (t i)).2
    · simp [h] at hd
    · simp only [h, Bool.false_eq_true, if_false, List.mem_cons] at hd
      rcases hd with hd | hd
      · exact hd
      · exact ih (i + 1) (taskExecution st pid (o i) (t i)).1 d hd

/-- When every execution fails, the driver leaves the publication
FAILED. -/
lemma celeryDrive_allfail (o : Nat → Except String ExtraData)
    (t : Nat → Nat) (pid : Nat)
    (hfail : ∀ j, ∃ m, o j = Except.error m) :
    ∀ (r i : Nat) (st : State) (p : Publication),
      findPub st.pubs pid = some p →
      ∃ q, findPub (celeryDrive o t pid i r st).1.pubs pid = some q ∧
        q.status = PublicationStatus.failed := by
  intro r
  induction r with
  | zero =>
    intro i st p hp
    obtain ⟨m, hm⟩ := hfail i
    unfold celeryDrive
    rw [hm]
    simp only [taskExecution_error_snd, Bool.false_eq_true, if_false]
    rw [taskExecution_find_error, hp]
    exact ⟨_, rfl, applyStatusUpdate_status _ _ _ _ _⟩
  | succ n ih =>
    intro i st p hp
    obtain ⟨m, hm⟩ := hfail i
    unfold celeryDrive
    rw [hm]
    simp only [taskExecution_error_snd, Bool.false_eq_true, if_false]
    have hp2 : findPub (taskExecution st pid (Except.error m) (t i)).1.pubs pid =
        some (applyStatusUpdate
          (applyStatusUpdate p PublicationStatus.processing none none (t i))
          PublicationStatus.failed (some m) none (t i)) := by
      rw [taskExecution_find_error, hp]
      rfl
    exact ih (i + 1) _ _ hp2

/-- Claim C8 as amended: a publish task is executed at most 4 times in
total — the initial attempt plus up to `max_retries = 3` Celery retries —
each scheduled retry uses the fixed 60-second countdown, each failing
execution persists the publication as FAILED with the failure text as
`error_message`, and when every execution fails the publication ends (and
stays) FAILED. -/
theorem publish_task_retry_budget :
    (∀ (o : Nat → Except String ExtraData) (t : Nat → Nat) (pid : Nat)
       (st : State), (runPublishTask o t pid st).2.1 ≤ 4)
    ∧ (∀ (o : Nat → Except String ExtraData) (t : Nat → Nat) (pid : Nat)
         (st : State) (d : Nat),
         d ∈ (runPublishTask o t pid st).2.2 → d = 60)
    ∧ (∀ (st : State) (pid : Nat) (msg : String) (now : Nat)
         (p : Publication),
         findPub st.pubs pid = some p → msg ≠ "" →
         ∃ q, findPub (taskExecution st pid (Except.error msg) now).1.pubs pid
             = some q
           ∧ q.status = PublicationStatus.failed
           ∧ q.error_message = some msg)
    ∧ (∀ (o : Nat → Except String ExtraData) (t : Nat → Nat) (pid : Nat)
         (st : State) (p : Publication),
         (∀ j, ∃ m, o j = Except.error m) →
         findPub st.pubs pid = some p →
         ∃ q, findPub (runPublishTask o t pid st).1.pubs pid = some q
           ∧ q.status = PublicationStatus.failed) := by
  refine ⟨?_, ?_, ?_, ?_⟩
  · intro o t pid st
    exact celeryDrive_attempts_le o t pid 3 0 st
  · intro o t pid st d hd
    exact celeryDrive_delays o t pid 3 0 st d hd
  · intro st pid msg now p hp hmsg
    refine ⟨_, by rw [taskExecution_find_error, hp]; rfl, ?_, ?_⟩
    · exact applyStatusUpdate_status _ _ _ _ _
    · rw [applyStatusUpdate_error_message]
      have : strTruthy (some msg) = true := by
        simp [strTruthy, hmsg]
      rw [this]
      rfl
  · intro o t pid st p hfail hp
    exact celeryDrive_allfail o t pid hfail 3 0 st p hp

/-- The one-publication state used by the C8 scenarios. -/
def c8st : State :=
  { pubs := [newPublication 1 0 SocialNetwork.facebook "c"],
    posts := [{ id := 0, status := PostStatus.processing }] }

/-- Counterexample for C8: with every platform call failing, the task is
executed 4 times (one initial attempt plus 3 retries), not at most 3. -/
theorem publish_task_runs_four_times :
    (runPublishTask (fun _ => Except.error "x") (fun i => i) 1 c8st).2.1 = 4
    ∧ ¬((runPublishTask (fun _ => Except.error "x") (fun i => i) 1
        c8st).2.1 ≤ 3) := by
  constructor <;> decide

/-- Witness for C8 (amended) on the concrete all-failing run. -/
theorem publish_task_retry_budget_witness :
    (∃ q, findPub (runPublishTask (fun _ => Except.error "x") (fun i => i) 1
        c8st).1.pubs 1 = some q ∧ q.status = PublicationStatus.failed)
    ∧ (∃ q, findPub (taskExecution c8st 1 (Except.error "x") 0).1.pubs 1 =
          some q
        ∧ q.status = PublicationStatus.failed
        ∧ q.error_message = some "x") :=
  ⟨publish_task_retry_budget.2.2.2 (fun _ => Except.error "x") (fun i => i)
     1 c8st (newPublication 1 0 SocialNetwork.facebook "c")
     (fun _ => ⟨"x", rfl⟩) (by decide),
   publish_task_retry_budget.2.2.1 c8st 1 "x" 0
     (newPublication 1 0 SocialNetwork.facebook "c") (by decide)
     (by decide)⟩

end Redes
